import Mathlib

/-!
Verification of the GLFW game-window adapter (`src/game_window_glfw.rs`).

The development shallowly embeds the event-translation core of the module:
the raw GLFW event stream, the normalized input-event model, the
`GameWindowGLFW` state (pending queue, last mouse position, settings,
native-window flags), and the operations `flush_messages`, `poll_event`,
`capture_cursor`, `from_pieces` and `new`, together with the static key
and mouse-button mapping tables `glfw_map_key` and `glfw_map_mouse`.

Floating-point coordinates (`f64`) are modelled by exact rationals, since
the code performs only single subtractions on them; the native message
channel is modelled as a list of batches, one batch consumed per pump.
-/

/-- GLFW key codes, exactly the variants enumerated by the exhaustive
match in `glfw_map_key` (the Rust match has no wildcard arm, so these are
all variants of the native enum). -/
inductive GlfwKey
  | Key0 | Key1 | Key2 | Key3 | Key4 | Key5 | Key6 | Key7 | Key8 | Key9
  | KeyA | KeyB | KeyC | KeyD | KeyE | KeyF | KeyG | KeyH | KeyI | KeyJ
  | KeyK | KeyL | KeyM | KeyN | KeyO | KeyP | KeyQ | KeyR | KeyS | KeyT
  | KeyU | KeyV | KeyW | KeyX | KeyY | KeyZ
  | KeyApostrophe | KeyBackslash | KeyBackspace | KeyCapsLock | KeyDelete
  | KeyComma | KeyDown | KeyEnd | KeyEnter | KeyEqual | KeyEscape
  | KeyF1 | KeyF2 | KeyF3 | KeyF4 | KeyF5 | KeyF6 | KeyF7 | KeyF8 | KeyF9
  | KeyF10 | KeyF11 | KeyF12 | KeyF13 | KeyF14 | KeyF15 | KeyF16 | KeyF17
  | KeyF18 | KeyF19 | KeyF20 | KeyF21 | KeyF22 | KeyF23 | KeyF24 | KeyF25
  | KeyKp0 | KeyKp1 | KeyKp2 | KeyKp3 | KeyKp4 | KeyKp5 | KeyKp6 | KeyKp7
  | KeyKp8 | KeyKp9
  | KeyKpDecimal | KeyKpDivide | KeyKpMultiply | KeyKpSubtract | KeyKpAdd
  | KeyKpEnter | KeyKpEqual
  | KeyLeftShift | KeyLeftControl | KeyLeftAlt | KeyLeftSuper
  | KeyRightShift | KeyRightControl | KeyRightAlt | KeyRightSuper
  | KeyGraveAccent | KeyHome | KeyInsert | KeyLeft | KeyLeftBracket
  | KeyMenu | KeyMinus | KeyNumLock | KeyPageDown | KeyPageUp | KeyPause
  | KeyPeriod | KeyPrintScreen | KeyRight | KeyRightBracket | KeyScrollLock
  | KeySemicolon | KeySlash | KeySpace | KeyTab | KeyUp
  | KeyWorld1 | KeyWorld2
  deriving DecidableEq

/-- Logical keyboard keys (`piston::input::keyboard::Key`), restricted to
the values that appear as targets of `glfw_map_key`. -/
inductive KeyboardKey
  | D0 | D1 | D2 | D3 | D4 | D5 | D6 | D7 | D8 | D9
  | A | B | C | D | E | F | G | H | I | J | K | L | M
  | N | O | P | Q | R | S | T | U | V | W | X | Y | Z
  | Unknown | Backslash | Backspace | CapsLock | Delete | Comma | Down
  | End | Return | Equals | Escape
  | F1 | F2 | F3 | F4 | F5 | F6 | F7 | F8 | F9 | F10 | F11 | F12
  | F13 | F14 | F15 | F16 | F17 | F18 | F19 | F20 | F21 | F22 | F23 | F24
  | NumPad0 | NumPad1 | NumPad2 | NumPad3 | NumPad4 | NumPad5 | NumPad6
  | NumPad7 | NumPad8 | NumPad9
  | NumPadDecimal | NumPadDivide | NumPadMultiply | NumPadMinus
  | NumPadPlus | NumPadEnter | NumPadEquals
  | LShift | LCtrl | LAlt | LGui | RShift | RCtrl | RAlt | RGui
  | Home | Insert | Left | LeftBracket | Menu | Minus | NumLockClear
  | PageDown | PageUp | Pause | Period | PrintScreen | Right | RightBracket
  | ScrollLock | Semicolon | Slash | Space | Tab | Up
  deriving DecidableEq

/-- Native GLFW mouse-button codes (`glfw::MouseButton1` .. `MouseButton8`),
exactly the variants enumerated by the exhaustive match in `glfw_map_mouse`. -/
inductive GlfwMouseButton
  | MouseButton1 | MouseButton2 | MouseButton3 | MouseButton4
  | MouseButton5 | MouseButton6 | MouseButton7 | MouseButton8
  deriving DecidableEq

/-- Logical mouse buttons (`piston::input::mouse::Button`). -/
inductive MouseButton
  | Left | Right | Middle | X1 | X2 | Button6 | Button7 | Button8
  deriving DecidableEq

/-- GLFW key/button action (`glfw::Action`). -/
inductive GlfwAction
  | Press | Release | Repeat
  deriving DecidableEq

/-- Key mapping table `glfw_map_key` (source lines 213-339): a total match
on every native key code, mirroring the Rust match arm by arm. -/
def glfw_map_key (keycode : GlfwKey) : KeyboardKey :=
  match keycode with
  | .Key0 => .D0
  | .Key1 => .D1
  | .Key2 => .D2
  | .Key3 => .D3
  | .Key4 => .D4
  | .Key5 => .D5
  | .Key6 => .D6
  | .Key7 => .D7
  | .Key8 => .D8
  | .Key9 => .D9
  | .KeyA => .A
  | .KeyB => .B
  | .KeyC => .C
  | .KeyD => .D
  | .KeyE => .E
  | .KeyF => .F
  | .KeyG => .G
  | .KeyH => .H
  | .KeyI => .I
  | .KeyJ => .J
  | .KeyK => .K
  | .KeyL => .L
  | .KeyM => .M
  | .KeyN => .N
  | .KeyO => .O
  | .KeyP => .P
  | .KeyQ => .Q
  | .KeyR => .R
  | .KeyS => .S
  | .KeyT => .T
  | .KeyU => .U
  | .KeyV => .V
  | .KeyW => .W
  | .KeyX => .X
  | .KeyY => .Y
  | .KeyZ => .Z
  | .KeyApostrophe => .Unknown
  | .KeyBackslash => .Backslash
  | .KeyBackspace => .Backspace
  | .KeyCapsLock => .CapsLock
  | .KeyDelete => .Delete
  | .KeyComma => .Comma
  | .KeyDown => .Down
  | .KeyEnd => .End
  | .KeyEnter => .Return
  | .KeyEqual => .Equals
  | .KeyEscape => .Escape
  | .KeyF1 => .F1
  | .KeyF2 => .F2
  | .KeyF3 => .F3
  | .KeyF4 => .F4
  | .KeyF5 => .F5
  | .KeyF6 => .F6
  | .KeyF7 => .F7
  | .KeyF8 => .F8
  | .KeyF9 => .F9
  | .KeyF10 => .F10
  | .KeyF11 => .F11
  | .KeyF12 => .F12
  | .KeyF13 => .F13
  | .KeyF14 => .F14
  | .KeyF15 => .F15
  | .KeyF16 => .F16
  | .KeyF17 => .F17
  | .KeyF18 => .F18
  | .KeyF19 => .F19
  | .KeyF20 => .F20
  | .KeyF21 => .F21
  | .KeyF22 => .F22
  | .KeyF23 => .F23
  | .KeyF24 => .F24
  | .KeyF25 => .Unknown
  | .KeyKp0 => .NumPad0
  | .KeyKp1 => .NumPad1
  | .KeyKp2 => .NumPad2
  | .KeyKp3 => .NumPad3
  | .KeyKp4 => .NumPad4
  | .KeyKp5 => .NumPad5
  | .KeyKp6 => .NumPad6
  | .KeyKp7 => .NumPad7
  | .KeyKp8 => .NumPad8
  | .KeyKp9 => .NumPad9
  | .KeyKpDecimal => .NumPadDecimal
  | .KeyKpDivide => .NumPadDivide
  | .KeyKpMultiply => .NumPadMultiply
  | .KeyKpSubtract => .NumPadMinus
  | .KeyKpAdd => .NumPadPlus
  | .KeyKpEnter => .NumPadEnter
  | .KeyKpEqual => .NumPadEquals
  | .KeyLeftShift => .LShift
  | .KeyLeftControl => .LCtrl
  | .KeyLeftAlt => .LAlt
  | .KeyLeftSuper => .LGui
  | .KeyRightShift => .RShift
  | .KeyRightControl => .RCtrl
  | .KeyRightAlt => .RAlt
  | .KeyRightSuper => .RGui
  | .KeyGraveAccent => .Unknown
  | .KeyHome => .Home
  | .KeyInsert => .Insert
  | .KeyLeft => .Left
  | .KeyLeftBracket => .LeftBracket
  | .KeyMenu => .Menu
  | .KeyMinus => .Minus
  | .KeyNumLock => .NumLockClear
  | .KeyPageDown => .PageDown
  | .KeyPageUp => .PageUp
  | .KeyPause => .Pause
  | .KeyPeriod => .Period
  | .KeyPrintScreen => .PrintScreen
  | .KeyRight => .Right
  | .KeyRightBracket => .RightBracket
  | .KeyScrollLock => .ScrollLock
  | .KeySemicolon => .Semicolon
  | .KeySlash => .Slash
  | .KeySpace => .Space
  | .KeyTab => .Tab
  | .KeyUp => .Up
  | .KeyWorld1 => .Unknown
  | .KeyWorld2 => .Unknown

/-- Mouse-button mapping table `glfw_map_mouse` (source lines 341-352). -/
def glfw_map_mouse (mouse_button : GlfwMouseButton) : MouseButton :=
  match mouse_button with
  | .MouseButton1 => .Left
  | .MouseButton2 => .Right
  | .MouseButton3 => .Middle
  | .MouseButton4 => .X1
  | .MouseButton5 => .X2
  | .MouseButton6 => .Button6
  | .MouseButton7 => .Button7
  | .MouseButton8 => .Button8

/-- Raw GLFW window events (`glfw::WindowEvent`), the variants matched by
`flush_messages`; scancode and modifier fields are carried but unused
(matched with a wildcard in the source). Coordinates and deltas are `f64`
in the source, modelled as exact rationals. -/
inductive RawEvent
  | KeyEvent (key : GlfwKey) (scancode : Int) (action : GlfwAction) (mods : Nat)
  | CharEvent (ch : Char)
  | MouseButtonEvent (button : GlfwMouseButton) (action : GlfwAction) (mods : Nat)
  | CursorPosEvent (x y : Rat)
  | ScrollEvent (x y : Rat)
  deriving DecidableEq

/-- Motion kinds (`piston::input::Motion`). -/
inductive Motion
  | MouseCursor (x y : Rat)
  | MouseRelative (dx dy : Rat)
  | MouseScroll (dx dy : Rat)
  deriving DecidableEq

/-- Sources of press/release events (`piston::input::Button`). -/
inductive ButtonSource
  | Keyboard (key : KeyboardKey)
  | Mouse (button : MouseButton)
  deriving DecidableEq

/-- Normalized input events (`piston::input::InputEvent`), the variants
constructed by `flush_messages`. -/
inductive InputEvent
  | Press (source : ButtonSource)
  | Release (source : ButtonSource)
  | Text (s : String)
  | Move (motion : Motion)
  deriving DecidableEq

/-- GLFW cursor modes used by `capture_cursor`. -/
inductive CursorMode
  | CursorNormal | CursorDisabled
  deriving DecidableEq

/-- GLFW window modes (`glfw::WindowMode`): windowed, or fullscreen on a
monitor (the monitor handle is irrelevant to the adapter and elided). -/
inductive WindowMode
  | Windowed
  | FullScreen
  deriving DecidableEq

/-- Game window settings (`piston::GameWindowSettings`). -/
structure GameWindowSettings where
  title : String
  size : Nat × Nat
  fullscreen : Bool
  exit_on_esc : Bool
  deriving DecidableEq

/-- State of the adapter: the fields of `GameWindowGLFW` (settings,
`event_queue`, `last_mouse_pos`) together with the native-window state the
adapter mutates (`should_close` flag, cursor mode) and the native message
source. The source is modelled as a list of batches: one call to
`glfw.poll_events()` followed by draining `glfw::flush_messages(&events)`
consumes exactly the head batch (each record carries the `f64` timestamp
the receiver pairs with it, which `flush_messages` discards). -/
structure GameWindowGLFW where
  settings : GameWindowSettings
  event_queue : List InputEvent
  last_mouse_pos : Option (Rat × Rat)
  should_close : Bool
  cursor_mode : CursorMode
  batches : List (List (Rat × RawEvent))
  deriving DecidableEq

/-- Translation of one raw record: the body of the `for` loop in
`flush_messages` (source lines 109-155), mirroring the Rust match arms.
The first Rust arm is `KeyEvent(KeyEscape, _, Press, _) if exit_on_esc`;
when its guard fails, the record falls through to the generic
`KeyEvent(key, _, Press, _)` arm. Unmatched records (`_ => {}`), including
key and mouse-button events with action `Repeat`, leave the state
unchanged. -/
def processEvent (s : GameWindowGLFW) (rec : Rat × RawEvent) : GameWindowGLFW :=
  match rec.2 with
  | .KeyEvent key _ .Press _ =>
      if key = .KeyEscape ∧ s.settings.exit_on_esc then
        { s with should_close := true }
      else
        { s with event_queue :=
            s.event_queue ++ [.Press (.Keyboard (glfw_map_key key))] }
  | .KeyEvent key _ .Release _ =>
      { s with event_queue :=
          s.event_queue ++ [.Release (.Keyboard (glfw_map_key key))] }
  | .KeyEvent _ _ .Repeat _ => s
  | .CharEvent ch =>
      { s with event_queue := s.event_queue ++ [.Text ch.toString] }
  | .MouseButtonEvent button .Press _ =>
      { s with event_queue :=
          s.event_queue ++ [.Press (.Mouse (glfw_map_mouse button))] }
  | .MouseButtonEvent button .Release _ =>
      { s with event_queue :=
          s.event_queue ++ [.Release (.Mouse (glfw_map_mouse button))] }
  | .MouseButtonEvent _ .Repeat _ => s
  | .CursorPosEvent x y =>
      let s1 : GameWindowGLFW := { s with event_queue :=
          s.event_queue ++ [.Move (.MouseCursor x y)] }
      let s2 : GameWindowGLFW := match s1.last_mouse_pos with
        | some (lx, ly) =>
            { s1 with event_queue :=
                s1.event_queue ++ [.Move (.MouseRelative (x - lx) (y - ly))] }
        | none => s1
      { s2 with last_mouse_pos := some (x, y) }
  | .ScrollEvent x y =>
      { s with event_queue := s.event_queue ++ [.Move (.MouseScroll x y)] }

/-- The private pump `flush_messages` (source lines 103-156): early return
when the queue is non-empty; otherwise poll the native source once and
translate every drained record in arrival order. An empty batch list means
the native layer has nothing queued. -/
def flush_messages (s : GameWindowGLFW) : GameWindowGLFW :=
  if s.event_queue.length ≠ 0 then s
  else
    match s.batches with
    | [] => s
    | batch :: rest => batch.foldl processEvent { s with batches := rest }

/-- The pull interface `poll_event` (source lines 202-210): flush, then pop
the front of the queue if any. -/
def poll_event (s : GameWindowGLFW) : Option InputEvent × GameWindowGLFW :=
  let s1 := flush_messages s
  match s1.event_queue with
  | [] => (none, s1)
  | e :: rest => (some e, { s1 with event_queue := rest })

/-- Iterated polling: the outputs and final state of `n` successive calls
to `poll_event`. -/
def poll_n (s : GameWindowGLFW) : Nat → List (Option InputEvent) × GameWindowGLFW
  | 0 => ([], s)
  | n + 1 =>
      let (e, s1) := poll_event s
      let (es, s2) := poll_n s1 n
      (e :: es, s2)

/-- The `capture_cursor` operation (source lines 193-200): enabling sets
the disabled cursor mode; disabling restores the normal mode and clears
`last_mouse_pos`. -/
def capture_cursor (s : GameWindowGLFW) (enabled : Bool) : GameWindowGLFW :=
  if enabled then
    { s with cursor_mode := .CursorDisabled }
  else
    { s with cursor_mode := .CursorNormal, last_mouse_pos := none }

/-- Rust cast `i32 as u32` (two's complement reinterpretation). -/
def u32_of_i32 (n : Int) : Nat := (n % (2 ^ 32)).toNat

/-- Per-class event-polling toggles of a GLFW window. A freshly created
native window has every class disabled; the adapter enables classes by
explicit `set_*_polling(true)` calls. -/
structure PollingState where
  key_polling : Bool
  mouse_button_polling : Bool
  cursor_pos_polling : Bool
  scroll_polling : Bool
  char_polling : Bool
  deriving DecidableEq

/-- Polling state of a fresh native window: all classes disabled. -/
def PollingState.initial : PollingState :=
  { key_polling := false, mouse_button_polling := false,
    cursor_pos_polling := false, scroll_polling := false,
    char_polling := false }

/-- Polling toggles performed by `from_pieces` (source lines 37-40): key,
mouse-button, cursor-position and scroll polling are enabled; there is no
`set_char_polling` call in `from_pieces`, so character polling keeps its
fresh-window default of disabled. -/
def from_pieces_polling : PollingState :=
  { PollingState.initial with
      key_polling := true, mouse_button_polling := true,
      cursor_pos_polling := true, scroll_polling := true }

/-- Polling toggles performed by `new` (source lines 81-85): all five
classes, including `set_char_polling(true)`. -/
def new_polling : PollingState :=
  { PollingState.initial with
      key_polling := true, mouse_button_polling := true,
      cursor_pos_polling := true, scroll_polling := true,
      char_polling := true }

/-- The fullscreen flag computed by `from_pieces` (source line 44):
`win.with_window_mode(|m| match m { glfw::Windowed => true, _ => false })`,
transcribed arm by arm. -/
def from_pieces_fullscreen (m : WindowMode) : Bool :=
  match m with
  | .Windowed => true
  | _ => false

/-- The `from_pieces` constructor (source lines 34-59), restricted to the
state it builds: settings are inferred from the live window (framebuffer
size cast `i32 as u32`, fullscreen flag from the window mode, fixed title),
and the translator starts with an empty queue and no relative-motion
baseline. `fb` is the live window's framebuffer size, `mode` its window
mode, `events` the native message source. -/
def from_pieces (fb : Int × Int) (mode : WindowMode)
    (events : List (List (Rat × RawEvent))) (exit_on_esc : Bool) :
    GameWindowGLFW :=
  { settings :=
      { title := "<unknown window title, created with from_pieces>"
      , size := (u32_of_i32 fb.1, u32_of_i32 fb.2)
      , fullscreen := from_pieces_fullscreen mode
      , exit_on_esc := exit_on_esc }
  , event_queue := []
  , last_mouse_pos := none
  , should_close := false
  , cursor_mode := .CursorNormal
  , batches := events }

/-- The state `new` builds on success (source lines 93-100): the given
settings are stored unchanged, the queue starts empty and the
relative-motion baseline is absent. -/
def new_ok_state (events : List (List (Rat × RawEvent)))
    (settings : GameWindowSettings) : GameWindowGLFW :=
  { settings := settings
  , event_queue := []
  , last_mouse_pos := none
  , should_close := false
  , cursor_mode := .CursorNormal
  , batches := events }

/-- Outcome of `new`. The Rust signature is
`pub fn new(opengl, settings) -> GameWindowGLFW`: there is no error type in
the return value, so the only failure mode is a Rust panic (process
unwinding), which the embedding records as `panicked` with the panic
message. -/
inductive NewOutcome
  | ok (w : GameWindowGLFW)
  | panicked (msg : String)
  deriving DecidableEq

/-- The `new` constructor (source lines 62-101). `createResult` is the
outcome of `glfw.create_window(...)`: `none` when the native layer cannot
satisfy the requested context or allocate a window. The source applies
`.expect("Failed to create GLFW window.")` to it, which panics on `None`;
no error value is constructed and no retry is attempted. (`glfw::init`
failure likewise panics, via `.unwrap()`, before this point.) -/
def new_model (createResult : Option (List (List (Rat × RawEvent))))
    (settings : GameWindowSettings) : NewOutcome :=
  match createResult with
  | none => .panicked "Failed to create GLFW window."
  | some events => .ok (new_ok_state events settings)

/-- Concrete settings used by witness states. -/
def demo_settings : GameWindowSettings :=
  { title := "demo", size := (640, 480), fullscreen := false,
    exit_on_esc := false }

/-- Concrete state delivering `CursorPosEvent(10,10)` in a first pump and
`CursorPosEvent(13,7)` in a second pump, with no capture reset between
them. -/
def demo_cursor_state : GameWindowGLFW :=
  { settings := demo_settings
  , event_queue := []
  , last_mouse_pos := none
  , should_close := false
  , cursor_mode := .CursorNormal
  , batches := [[(0, .CursorPosEvent 10 10)], [(0, .CursorPosEvent 13 7)]] }

/-- Concrete state whose queue already holds one event and whose native
source has one further batch queued. -/
def demo_queue_state : GameWindowGLFW :=
  { settings := demo_settings
  , event_queue := [.Move (.MouseScroll 1 2)]
  , last_mouse_pos := none
  , should_close := false
  , cursor_mode := .CursorNormal
  , batches := [[(0, .ScrollEvent 4 5)]] }

/-- Concrete state with an empty queue and nothing queued natively. -/
def demo_empty_state : GameWindowGLFW :=
  { settings := demo_settings
  , event_queue := []
  , last_mouse_pos := none
  , should_close := false
  , cursor_mode := .CursorNormal
  , batches := [] }

/-- Concrete state with an empty queue and one scroll record waiting in
the native source. -/
def demo_pump_state : GameWindowGLFW :=
  { settings := demo_settings
  , event_queue := []
  , last_mouse_pos := none
  , should_close := false
  , cursor_mode := .CursorNormal
  , batches := [[(0, .ScrollEvent 4 5)]] }

/-- Concrete state with an established relative-motion baseline and the
cursor captured. -/
def demo_baseline_state : GameWindowGLFW :=
  { settings := demo_settings
  , event_queue := []
  , last_mouse_pos := some (1, 2)
  , should_close := false
  , cursor_mode := .CursorDisabled
  , batches := [] }

/-- A non-empty queue makes `flush_messages` return without pumping
(the early return at source lines 104-106). -/
theorem flush_messages_nonempty (s : GameWindowGLFW)
    (h : s.event_queue ≠ []) : flush_messages s = s := by
  simp [flush_messages, h]

/-- With a non-empty queue, `poll_event` pops the front element and
changes nothing else. -/
theorem poll_event_cons (s : GameWindowGLFW) (e : InputEvent)
    (es : List InputEvent) (h : s.event_queue = e :: es) :
    poll_event s = (some e, { s with event_queue := es }) := by
  simp [poll_event, flush_messages_nonempty s (by simp [h]), h]

/-- With an empty queue and a batch available, `flush_messages` consumes
exactly that batch, translating its records in arrival order. -/
theorem flush_messages_pump (s : GameWindowGLFW)
    (batch : List (Rat × RawEvent)) (rest : List (List (Rat × RawEvent)))
    (hq : s.event_queue = []) (hb : s.batches = batch :: rest) :
    flush_messages s = batch.foldl processEvent { s with batches := rest } := by
  simp [flush_messages, hq, hb]

/-- Draining lemma: a queue of length `n` is served by `n` successive
calls to `poll_event` in FIFO order, with no other state change. -/
theorem poll_n_drain (q : List InputEvent) :
    ∀ s : GameWindowGLFW, s.event_queue = q →
      poll_n s q.length = (q.map some, { s with event_queue := [] }) := by
  induction q with
  | nil =>
      intro s h
      rcases s with ⟨st, eq, l, c, m, b⟩
      simp only at h
      subst h
      simp [poll_n]
  | cons e es ih =>
      intro s h
      have h1 := poll_event_cons s e es h
      have h2 := ih { s with event_queue := es } rfl
      simp [poll_n, h1, h2]

/-- C1: every `CursorPosEvent(x,y)` appends `Move(MouseCursor(x,y))` to the
pending queue; exactly when `last_mouse_pos` was `Some(lx,ly)` at that
moment, `Move(MouseRelative(x-lx, y-ly))` is appended immediately after
(absolute then relative); and `last_mouse_pos` becomes `Some(x,y)` in
either case. Concretely, `CursorPosEvent(10,10)` then `CursorPosEvent(13,7)`
with no capture reset in between yields `Move(MouseCursor(13,7))` followed
by `Move(MouseRelative(3,-3))` from the second pump. -/
theorem cursor_pos_event_translation :
    (∀ (s : GameWindowGLFW) (t x y : Rat),
        (processEvent s (t, .CursorPosEvent x y)).event_queue =
          s.event_queue ++
            (match s.last_mouse_pos with
             | some (lx, ly) =>
                 [.Move (.MouseCursor x y),
                  .Move (.MouseRelative (x - lx) (y - ly))]
             | none => [.Move (.MouseCursor x y)]) ∧
        (processEvent s (t, .CursorPosEvent x y)).last_mouse_pos = some (x, y)) ∧
    (poll_n demo_cursor_state 3).1 =
      [some (.Move (.MouseCursor 10 10)),
       some (.Move (.MouseCursor 13 7)),
       some (.Move (.MouseRelative 3 (-3)))] := by
  constructor
  · intro s t x y
    rcases hl : s.last_mouse_pos with _ | ⟨lx, ly⟩ <;>
      simp [processEvent, hl]
  · simp [poll_n, poll_event, flush_messages, processEvent, demo_cursor_state,
      demo_settings]
    norm_num

/-- C2: `poll_event` serves the queue in FIFO order with a strict
refill-then-drain discipline. With a non-empty queue it pops the front and
touches nothing else (in particular no batch is consumed, so the native
pump runs only on an empty queue); with an empty queue and an empty native
source it returns `none` unchanged; with an empty queue it pumps exactly
the next batch, translating its records in arrival order; and the `k`
events a pump appends are returned by the next `k` calls in that order,
leaving the queue empty again (so the following call pumps anew). -/
theorem poll_event_fifo_discipline :
    (∀ (s : GameWindowGLFW) (e : InputEvent) (es : List InputEvent),
        s.event_queue = e :: es →
        poll_event s = (some e, { s with event_queue := es })) ∧
    (∀ s : GameWindowGLFW, s.event_queue = [] → s.batches = [] →
        poll_event s = (none, s)) ∧
    (∀ (s : GameWindowGLFW) (batch : List (Rat × RawEvent))
        (rest : List (List (Rat × RawEvent))),
        s.event_queue = [] → s.batches = batch :: rest →
        flush_messages s = batch.foldl processEvent { s with batches := rest }) ∧
    (∀ s : GameWindowGLFW, s.event_queue = [] →
        (flush_messages s).event_queue ≠ [] →
        poll_n s (flush_messages s).event_queue.length =
          ((flush_messages s).event_queue.map some,
           { flush_messages s with event_queue := [] })) := by
  refine ⟨poll_event_cons, ?_, flush_messages_pump, ?_⟩
  · intro s hq hb
    simp [poll_event, flush_messages, hq, hb]
  · intro s hq hne
    rcases hcase : (flush_messages s).event_queue with _ | ⟨e, es⟩
    · exact absurd hcase hne
    · have hpe : poll_event s =
          (some e, { flush_messages s with event_queue := es }) := by
        simp [poll_event, hcase]
      have hdr := poll_n_drain es { flush_messages s with event_queue := es } rfl
      simp [poll_n, hpe, hdr]

/-- Witness for C2: the discipline evaluated at concrete states — popping
a queued scroll event without pumping, returning `none` on an empty queue
with nothing queued natively, pumping one waiting batch, and draining the
pumped events in order. -/
theorem poll_event_fifo_discipline_witness :
    poll_event demo_queue_state =
      (some (.Move (.MouseScroll 1 2)),
       { demo_queue_state with event_queue := [] }) ∧
    poll_event demo_empty_state = (none, demo_empty_state) ∧
    flush_messages demo_pump_state =
      List.foldl processEvent { demo_pump_state with batches := [] }
        [(0, .ScrollEvent 4 5)] ∧
    poll_n demo_pump_state (flush_messages demo_pump_state).event_queue.length =
      ((flush_messages demo_pump_state).event_queue.map some,
       { flush_messages demo_pump_state with event_queue := [] }) :=
  ⟨poll_event_fifo_discipline.1 demo_queue_state (.Move (.MouseScroll 1 2)) [] rfl,
   poll_event_fifo_discipline.2.1 demo_empty_state rfl rfl,
   poll_event_fifo_discipline.2.2.1 demo_pump_state [(0, .ScrollEvent 4 5)] [] rfl rfl,
   poll_event_fifo_discipline.2.2.2 demo_pump_state rfl
     (by simp [flush_messages, demo_pump_state, processEvent])⟩

/-- C3: `capture_cursor(false)` clears the relative-motion baseline, and a
`CursorPosEvent` processed while the baseline is absent appends only the
absolute `Move(MouseCursor(x,y))` event; both creation paths
(`from_pieces` and `new`) start with an absent baseline, so the very first
`CursorPosEvent` after creation behaves the same way. -/
theorem capture_disable_resets_baseline :
    (∀ s : GameWindowGLFW, (capture_cursor s false).last_mouse_pos = none) ∧
    (∀ (s : GameWindowGLFW) (t x y : Rat),
        s.last_mouse_pos = none →
        (processEvent s (t, .CursorPosEvent x y)).event_queue =
          s.event_queue ++ [.Move (.MouseCursor x y)]) ∧
    (∀ (fb : Int × Int) (mode : WindowMode)
        (events : List (List (Rat × RawEvent))) (b : Bool),
        (from_pieces fb mode events b).last_mouse_pos = none) ∧
    (∀ (events : List (List (Rat × RawEvent)))
        (settings : GameWindowSettings),
        (new_ok_state events settings).last_mouse_pos = none) := by
  refine ⟨fun s => by simp [capture_cursor], ?_, fun _ _ _ _ => rfl,
    fun _ _ => rfl⟩
  intro s t x y h
  simp [processEvent, h]

/-- Witness for C3: the first cursor event right after a
`capture_cursor(false)` reset yields only the absolute move event. -/
theorem capture_disable_resets_baseline_witness :
    (processEvent (capture_cursor demo_cursor_state false)
        (0, .CursorPosEvent 5 6)).event_queue =
      (capture_cursor demo_cursor_state false).event_queue ++
        [.Move (.MouseCursor 5 6)] :=
  capture_disable_resets_baseline.2.1 _ 0 5 6
    (capture_disable_resets_baseline.1 demo_cursor_state)

/-- C4: a `KeyEvent(Escape, Press)` marks the window for closing and
appends nothing when `exit_on_esc` is enabled; otherwise it appends an
ordinary `Press(Keyboard(Escape))` event and leaves the close flag
untouched (the full state equality shows no other effect in either case). -/
theorem escape_exit_on_esc_gating :
    ∀ (s : GameWindowGLFW) (t : Rat) (sc : Int) (mods : Nat),
      processEvent s (t, .KeyEvent .KeyEscape sc .Press mods) =
        if s.settings.exit_on_esc then { s with should_close := true }
        else { s with event_queue :=
            s.event_queue ++ [.Press (.Keyboard .Escape)] } := by
  intro s t sc mods
  by_cases h : s.settings.exit_on_esc <;> simp [processEvent, h, glfw_map_key]

/-- C5: a `KeyEvent` with action `Repeat` leaves the state untouched for
every key code — no normalized event is appended, in particular no Press
and no Release. -/
theorem key_repeat_not_surfaced :
    ∀ (s : GameWindowGLFW) (t : Rat) (key : GlfwKey) (sc : Int) (mods : Nat),
      processEvent s (t, .KeyEvent key sc .Repeat mods) = s :=
  fun _ _ _ _ _ => rfl

/-- C6: `glfw_map_key` and `glfw_map_mouse` are total deterministic pure
functions — they are total Lean functions over the full native enums,
mirroring the exhaustive Rust matches, so every native code yields a
defined logical value — and the codes without a portable logical
equivalent (grave accent, the world keys, and also apostrophe and F25) map
to the `Unknown` sentinel. -/
theorem glfw_mapping_total :
    (∀ k : GlfwKey, ∃ v : KeyboardKey, glfw_map_key k = v) ∧
    (∀ b : GlfwMouseButton, ∃ v : MouseButton, glfw_map_mouse b = v) ∧
    glfw_map_key .KeyGraveAccent = .Unknown ∧
    glfw_map_key .KeyWorld1 = .Unknown ∧
    glfw_map_key .KeyWorld2 = .Unknown ∧
    glfw_map_key .KeyApostrophe = .Unknown ∧
    glfw_map_key .KeyF25 = .Unknown :=
  ⟨fun k => ⟨glfw_map_key k, rfl⟩, fun b => ⟨glfw_map_mouse b, rfl⟩,
   rfl, rfl, rfl, rfl, rfl⟩

/-- C7 is refuted by the code: `new` enables polling for all five raw
event classes (source lines 81-85), but `from_pieces` enables only key,
mouse-button, cursor-position and scroll polling (source lines 37-40) and
never calls `set_char_polling`, so character polling keeps its fresh-window
default of disabled and Text events cannot arrive on that path — contrary
to the claim (and to the spec's own statement that omitting character
polling is a correctness bug). -/
theorem from_pieces_char_polling_disabled :
    from_pieces_polling.char_polling = false ∧
    from_pieces_polling.key_polling = true ∧
    from_pieces_polling.mouse_button_polling = true ∧
    from_pieces_polling.cursor_pos_polling = true ∧
    from_pieces_polling.scroll_polling = true ∧
    new_polling.char_polling = true ∧
    new_polling.key_polling = true ∧
    new_polling.mouse_button_polling = true ∧
    new_polling.cursor_pos_polling = true ∧
    new_polling.scroll_polling = true := by
  decide

/-- C8 is refuted by the code: the size stored by `from_pieces` does equal
the live framebuffer size, but the stored fullscreen flag is computed by
`match m { Windowed => true, _ => false }` (source line 44), i.e. it is
`true` exactly for a WINDOWED window and `false` for a fullscreen one —
the inverse of the claimed (and evidently intended) polarity. -/
theorem from_pieces_fullscreen_flag_inverted :
    from_pieces_fullscreen .Windowed = true ∧
    from_pieces_fullscreen .FullScreen = false ∧
    (∀ (fb : Int × Int) (mode : WindowMode)
        (events : List (List (Rat × RawEvent))) (b : Bool),
      (from_pieces fb mode events b).settings.size =
        (u32_of_i32 fb.1, u32_of_i32 fb.2) ∧
      (from_pieces fb mode events b).settings.fullscreen =
        from_pieces_fullscreen mode) :=
  ⟨rfl, rfl, fun _ _ _ _ => ⟨rfl, rfl⟩⟩

/-- Counterexample to C9: when the native layer cannot create the window,
`new` does not propagate any error value to the caller — its Rust return
type is plain `GameWindowGLFW`, and the model of its behavior
(`NewOutcome`) accordingly has only the `ok` and `panicked` outcomes.
Evaluating the failing input shows the outcome is the panic raised by
`.expect("Failed to create GLFW window.")`, not a `CreationError` value
the caller could handle. -/
theorem new_failure_returns_no_error_value :
    new_model none demo_settings =
      .panicked ("Failed to create GLFW window.") :=
  rfl

/-- C9 as amended: on native creation failure `new` fails hard by
panicking with the fixed message (no error value is returned, so there is
nothing for the caller to handle at this layer), and on success it returns
the fully initialized window state; in neither case is any retry
performed. -/
theorem new_failure_panics_no_retry :
    ∀ settings : GameWindowSettings,
      new_model none settings =
        .panicked ("Failed to create GLFW window.") ∧
      (∀ events, new_model (some events) settings =
          .ok (new_ok_state events settings)) :=
  fun _ => ⟨rfl, fun _ => rfl⟩

/-- C10: `capture_cursor(true)` changes only the cursor mode — the
relative-motion baseline and the pending queue are untouched; moreover
`processEvent` never reads the cursor mode at all, so relative-motion
synthesis is identical under every capture state, and a `CursorPosEvent`
with an established baseline appends the absolute and relative moves
whatever the cursor mode is. -/
theorem capture_enable_preserves_translator :
    (∀ s : GameWindowGLFW,
        capture_cursor s true = { s with cursor_mode := .CursorDisabled }) ∧
    (∀ (s : GameWindowGLFW) (m : CursorMode) (rec : Rat × RawEvent),
        processEvent { s with cursor_mode := m } rec =
          { processEvent s rec with cursor_mode := m }) ∧
    (∀ (s : GameWindowGLFW) (t x y lx ly : Rat),
        s.last_mouse_pos = some (lx, ly) →
        (processEvent s (t, .CursorPosEvent x y)).event_queue =
          s.event_queue ++ [.Move (.MouseCursor x y),
                            .Move (.MouseRelative (x - lx) (y - ly))]) := by
  refine ⟨fun s => by simp [capture_cursor], ?_, ?_⟩
  · intro s m rec
    rcases rec with ⟨t, ev⟩
    cases ev with
    | KeyEvent key sc a mods =>
        cases a with
        | Press =>
            simp [processEvent]
            split <;> rfl
        | Release => rfl
        | Repeat => rfl
    | CharEvent ch => rfl
    | MouseButtonEvent b a mods => cases a <;> rfl
    | CursorPosEvent x y =>
        rcases hl : s.last_mouse_pos with _ | ⟨lx, ly⟩ <;>
          simp [processEvent, hl]
    | ScrollEvent x y => rfl
  · intro s t x y lx ly h
    simp [processEvent, h]

/-- Witness for C10: with the baseline `(1,2)` established and the cursor
captured, a `CursorPosEvent(4,6)` appends the absolute move followed by
the relative move. -/
theorem capture_enable_preserves_translator_witness :
    (processEvent demo_baseline_state (0, .CursorPosEvent 4 6)).event_queue =
      demo_baseline_state.event_queue ++
        [.Move (.MouseCursor 4 6), .Move (.MouseRelative (4 - 1) (6 - 2))] :=
  capture_enable_preserves_translator.2.2 demo_baseline_state 0 4 6 1 2 rfl
